import Mathlib

/-!
Verification development for the seda-manager repository: a shallow
embedding of the SEDA portal client (`app/wrapper/seda_wrapper.py`) and the
applications facade (`app/api/v1/applications.py`), together with theorems
settling the frozen behavioural claims about session validation, CSRF
payload construction, write-outcome classification, HTML record extraction
and cookie loading.

The Python code drives all HTML extraction through `re` patterns.  To keep
the embedding executable we implement a small backtracking matcher in
continuation-passing style whose combinators reproduce Python `re`
semantics for the constructs those patterns use: literals (optionally
case-insensitive), single-character classes, greedy and lazy star/plus over
a character class, capture groups, `re.search` (leftmost match) and
`re.findall` (leftmost, non-overlapping).  Each source pattern is then
transliterated token by token into a combinator chain.
-/

/-- Captured groups of one match, in group order. -/
abbrev Caps := List String

/-- A matcher continuation: consumes input, returns captures of the rest of
the pattern plus the remaining input after the whole match. -/
abbrev K := List Char → Option (Caps × List Char)

/-- End of pattern: match succeeds, no further captures. -/
def kdone : K := fun cs => some ([], cs)

/-- Case-sensitive literal. -/
def litK (pat : List Char) (k : K) : K := fun cs =>
  if pat.isPrefixOf cs then k (cs.drop pat.length) else none

/-- Case-insensitive prefix test (Python `re.IGNORECASE` on ASCII literals). -/
def ciPrefix : List Char → List Char → Bool
  | [], _ => true
  | _ :: _, [] => false
  | p :: ps, c :: cs => (p.toLower == c.toLower) && ciPrefix ps cs

/-- Case-insensitive literal. -/
def litCiK (pat : List Char) (k : K) : K := fun cs =>
  if ciPrefix pat cs then k (cs.drop pat.length) else none

/-- Greedy `p*` (no capture): longest munch first, backtracking into `k`. -/
def starGo (p : Char → Bool) (k : K) : List Char → Option (Caps × List Char)
  | [] => k []
  | c :: cs =>
    if p c then
      match starGo p k cs with
      | some r => some r
      | none => k (c :: cs)
    else k (c :: cs)

/-- Greedy capturing `(p*)`: tries the longest munch first. `acc` holds the
munched characters in reverse. -/
def capStarGo (p : Char → Bool) (k : K) (acc : List Char) :
    List Char → Option (Caps × List Char)
  | [] =>
    match k [] with
    | some (caps, rest) => some (String.mk acc.reverse :: caps, rest)
    | none => none
  | c :: cs =>
    if p c then
      match capStarGo p k (c :: acc) cs with
      | some r => some r
      | none =>
        match k (c :: cs) with
        | some (caps, rest) => some (String.mk acc.reverse :: caps, rest)
        | none => none
    else
      match k (c :: cs) with
      | some (caps, rest) => some (String.mk acc.reverse :: caps, rest)
      | none => none

/-- Greedy capturing `(p*)`. -/
def capStarK (p : Char → Bool) (k : K) : K := fun cs => capStarGo p k [] cs

/-- Greedy capturing `(p+)`. -/
def capPlusK (p : Char → Bool) (k : K) : K := fun cs =>
  match cs with
  | [] => none
  | c :: cs' => if p c then capStarGo p k [c] cs' else none

/-- Lazy capturing `(p*?)`: shortest munch first. -/
def capLazyGo (p : Char → Bool) (k : K) (acc : List Char) :
    List Char → Option (Caps × List Char)
  | [] =>
    match k [] with
    | some (caps, rest) => some (String.mk acc.reverse :: caps, rest)
    | none => none
  | c :: cs =>
    match k (c :: cs) with
    | some (caps, rest) => some (String.mk acc.reverse :: caps, rest)
    | none => if p c then capLazyGo p k (c :: acc) cs else none

/-- Lazy capturing `(p*?)`. -/
def capLazyK (p : Char → Bool) (k : K) : K := fun cs => capLazyGo p k [] cs

/-- Lazy `p*?` (no capture). -/
def lazyGo (p : Char → Bool) (k : K) : List Char → Option (Caps × List Char)
  | [] => k []
  | c :: cs =>
    match k (c :: cs) with
    | some r => some r
    | none => if p c then lazyGo p k cs else none

/-- Optional single character `c?` (greedy: try consuming first). -/
def optCharK (ch : Char) (k : K) : K := fun cs =>
  match cs with
  | [] => k []
  | c :: cs' =>
    if c == ch then
      match k cs' with
      | some r => some r
      | none => k (c :: cs')
    else k (c :: cs')

/-- `re.search`: try the pattern at each position, leftmost first. -/
def searchGo (k : K) : List Char → Option Caps
  | [] => (k []).map Prod.fst
  | c :: cs =>
    match k (c :: cs) with
    | some (caps, _) => some caps
    | none => searchGo k cs

/-- `re.search` over a string, returning the captures of the first match. -/
def research (k : K) (s : String) : Option Caps := searchGo k s.data

/-- `re.findall`: leftmost, non-overlapping matches; on an empty-width match
the scan advances one character (fuel bounds the number of steps). -/
def findallGo (k : K) : Nat → List Char → List Caps
  | 0, _ => []
  | fuel + 1, cs =>
    match k cs with
    | some (caps, rest) =>
      if rest.length < cs.length then caps :: findallGo k fuel rest
      else
        match cs with
        | [] => [caps]
        | _ :: cs' => caps :: findallGo k fuel cs'
    | none =>
      match cs with
      | [] => []
      | _ :: cs' => findallGo k fuel cs'

/-- `re.findall` over a string. -/
def refindall (k : K) (s : String) : List Caps :=
  findallGo k (s.data.length + 1) s.data

/-- Python `\s` on ASCII. -/
def wsp (c : Char) : Bool :=
  c == ' ' || c == '\t' || c == '\n' || c == '\r' || c == '\x0b' || c == '\x0c'

/-- `.` under `re.DOTALL`. -/
def anyc (_ : Char) : Bool := true

/-- `.` without `re.DOTALL` (anything but a newline). -/
def notNl (c : Char) : Bool := c != '\n'

/-- `\d`. -/
def digitc (c : Char) : Bool := c.isDigit

/-- `[^"]`. -/
def notQ (c : Char) : Bool := c != '"'

/-- `[^>]`. -/
def notGt (c : Char) : Bool := c != '>'

/-- `[^<]`. -/
def notLt (c : Char) : Bool := c != '<'

/-- Python `pat in s` on character lists: some suffix starts with `pat`. -/
def listContains (pat : List Char) : List Char → Bool
  | [] => pat.isEmpty
  | c :: cs => pat.isPrefixOf (c :: cs) || listContains pat cs

/-- Python `pat in s` on strings. -/
def strContains (s pat : String) : Bool := listContains pat.data s.data

/-- Python `str.strip()` (ASCII whitespace). -/
def pyStrip (s : String) : String :=
  String.mk (((s.data.dropWhile wsp).reverse.dropWhile wsp).reverse)

/-- Python `str.upper()` on ASCII. -/
def pyUpper (s : String) : String := String.mk (s.data.map Char.toUpper)

/-- `re.sub(r'<[^>]+>', '', s)` — drop every complete markup tag, scanning
left to right (a `<` that opens no complete tag is kept). -/
def stripTagsGo : Nat → List Char → List Char
  | 0, cs => cs
  | _ + 1, [] => []
  | fuel + 1, c :: cs =>
    if c == '<' then
      let run := cs.takeWhile (· != '>')
      if run.isEmpty then c :: stripTagsGo fuel cs
      else
        match cs.drop run.length with
        | '>' :: rest => stripTagsGo fuel rest
        | _ => c :: stripTagsGo fuel cs
    else c :: stripTagsGo fuel cs

/-- `re.sub(r'<[^>]+>', '', s)` over a string. -/
def stripTags (s : String) : String :=
  String.mk (stripTagsGo (s.data.length + 1) s.data)

/-- Python dict insertion: overwrite in place if the key exists, else append. -/
def pyInsert (key val : String) : List (String × String) → List (String × String)
  | [] => [(key, val)]
  | (k', v') :: rest =>
    if k' == key then (k', val) :: rest else (k', v') :: pyInsert key val rest

/-- Python dict lookup. -/
def lookupStr (key : String) : List (String × String) → Option String
  | [] => none
  | (k, v) :: rest => if k == key then some v else lookupStr key rest

/-!
Transliterations of the `re` patterns appearing in the source, one
combinator chain per pattern, ending in `kdone`.
-/

/-- `seda_wrapper.py` line 65: `name="_token" value="([^"]+)"` (no flags). -/
def tokenK : K :=
  litK "name=\"_token\" value=\"".data <| capPlusK notQ <| litK "\"".data kdone

/-- `seda_wrapper.py` line 150: `/profiles/individuals/(\d+)/edit` (no flags). -/
def editK : K :=
  litK "/profiles/individuals/".data <| capPlusK digitc <| litK "/edit".data kdone

/-- `seda_wrapper.py` lines 81-84, the profile-list row pattern
(`re.DOTALL | re.IGNORECASE`):
`<tr>\s*<td>.*?</td>\s*<td><a href="([^"]+)">\s*(.*?)\s*</a>\s*</td>\s*<td>\s*(.*?)\s*</td>\s*<td>\s*(.*?)\s*</td>` -/
def profileRowK : K :=
  litCiK "<tr>".data <| starGo wsp <| litCiK "<td>".data <| lazyGo anyc <|
  litCiK "</td>".data <| starGo wsp <| litCiK "<td><a href=\"".data <|
  capPlusK notQ <| litCiK "\">".data <| starGo wsp <| capLazyK anyc <|
  starGo wsp <| litCiK "</a>".data <| starGo wsp <| litCiK "</td>".data <|
  starGo wsp <| litCiK "<td>".data <| starGo wsp <| capLazyK anyc <|
  starGo wsp <| litCiK "</td>".data <| starGo wsp <| litCiK "<td>".data <|
  starGo wsp <| capLazyK anyc <| starGo wsp <| litCiK "</td>".data kdone

/-- `seda_wrapper.py` line 111: `<input[^>]*name="([^"]+)"[^>]*value="([^"]*)"`
(no flags). -/
def inputWK : K :=
  litK "<input".data <| starGo notGt <| litK "name=\"".data <| capPlusK notQ <|
  litK "\"".data <| starGo notGt <| litK "value=\"".data <| capStarK notQ <|
  litK "\"".data kdone

/-- `seda_wrapper.py` line 115: `<select[^>]*name="([^"]+)"` (no flags). -/
def selectNameK : K :=
  litK "<select".data <| starGo notGt <| litK "name=\"".data <| capPlusK notQ <|
  litK "\"".data kdone

/-- `seda_wrapper.py` line 117: `<select[^>]*name="NAME"[\s\S]*?</select>`
with the select's name interpolated literally (the names arising here contain
no regex metacharacters).  The two variable spans are captured so that the
whole matched block (`group(0)` in the source) can be reassembled. -/
def selectBlockK (name : String) : K :=
  litK "<select".data <| capStarK notGt <|
  litK ("name=\"" ++ name ++ "\"").data <| capLazyK anyc <|
  litK "</select>".data kdone

/-- `seda_wrapper.py` line 120: `<option[^>]*selected[^>]*>(.*?)</option>`
(no flags, so `.` excludes newlines). -/
def optionSelK : K :=
  litK "<option".data <| starGo notGt <| litK "selected".data <| starGo notGt <|
  litK ">".data <| capLazyK notNl <| litK "</option>".data kdone

/-- `applications.py` lines 42-46, the application-list row pattern
(`re.DOTALL | re.IGNORECASE`):
`<tr>\s*<td>(\d+)</td>\s*<td>(.*?)</td>\s*<td>(.*?)</td>\s*<td>(.*?)</td>\s*<td>(.*?)</td>\s*</tr>` -/
def appRowK : K :=
  litCiK "<tr>".data <| starGo wsp <| litCiK "<td>".data <| capPlusK digitc <|
  litCiK "</td>".data <| starGo wsp <| litCiK "<td>".data <| capLazyK anyc <|
  litCiK "</td>".data <| starGo wsp <| litCiK "<td>".data <| capLazyK anyc <|
  litCiK "</td>".data <| starGo wsp <| litCiK "<td>".data <| capLazyK anyc <|
  litCiK "</td>".data <| starGo wsp <| litCiK "<td>".data <| capLazyK anyc <|
  litCiK "</td>".data <| starGo wsp <| litCiK "</tr>".data kdone

/-- `applications.py` lines 50-53 and 88-91:
`href="https://atap\.seda\.gov\.my/applications/(\d+)/applicant"[^>]*>([^<]+)</a>`
(no flags). -/
def appLinkK : K :=
  litK "href=\"https://atap.seda.gov.my/applications/".data <| capPlusK digitc <|
  litK "/applicant\"".data <| starGo notGt <| litK ">".data <|
  capPlusK notLt <| litK "</a>".data kdone

/-- `applications.py` line 60: `Reg\. No: ([^<]+)` (no flags). -/
def regNoK : K := litK "Reg. No: ".data <| capPlusK notLt kdone

/-- `applications.py` line 64: `Category: ([^<]+)` (no flags). -/
def categoryK : K := litK "Category: ".data <| capPlusK notLt kdone

/-- `applications.py` line 68: `<strong>(ATP\d+)</strong>` (no flags); the
captured group is the literal `ATP` plus the digit run. -/
def atpStrongK : K :=
  litK "<strong>ATP".data <| capPlusK digitc <| litK "</strong>".data kdone

/-- `applications.py` line 145: `ATP\d+` (no flags, `group(0)` used). -/
def atpBareK : K := litK "ATP".data <| capPlusK digitc kdone

/-- `applications.py` line 72: `>([^<]+)</span>` (no flags). -/
def statusSpanK : K :=
  litK ">".data <| capPlusK notLt <| litK "</span>".data kdone

/-- `applications.py` lines 152-155: `consumer[^>]*>\s*([^<]+)`
(`re.IGNORECASE | re.DOTALL`). -/
def consumerK : K :=
  litCiK "consumer".data <| starGo notGt <| litCiK ">".data <| starGo wsp <|
  capPlusK notLt kdone

/-- `applications.py` lines 164-168:
`<input[^>]*name="([^"]+)"[^>]*value="([^"]*)"[^>]*/?>` (`re.IGNORECASE`). -/
def inputAK : K :=
  litCiK "<input".data <| starGo notGt <| litCiK "name=\"".data <|
  capPlusK notQ <| litCiK "\"".data <| starGo notGt <| litCiK "value=\"".data <|
  capStarK notQ <| litCiK "\"".data <| starGo notGt <| optCharK '/' <|
  litCiK ">".data kdone

/-- `applications.py` lines 174-178:
`<select[^>]*name="([^"]+)"[^>]*>(.*?)</select>` (`re.IGNORECASE | re.DOTALL`). -/
def selectAK : K :=
  litCiK "<select".data <| starGo notGt <| litCiK "name=\"".data <|
  capPlusK notQ <| litCiK "\"".data <| starGo notGt <| litCiK ">".data <|
  capLazyK anyc <| litCiK "</select>".data kdone

/-- `applications.py` lines 180-184: `<option[^>]*selected[^>]*>([^<]*)`
(`re.IGNORECASE`). -/
def optionSelAK : K :=
  litCiK "<option".data <| starGo notGt <| litCiK "selected".data <|
  starGo notGt <| litCiK ">".data <| capStarK notLt kdone

/-- `applications.py` line 190: `<tr[^>]*>(.*?)</tr>`
(`re.IGNORECASE | re.DOTALL`). -/
def trK : K :=
  litCiK "<tr".data <| starGo notGt <| litCiK ">".data <| capLazyK anyc <|
  litCiK "</tr>".data kdone

/-- `applications.py` line 193: `<td[^>]*>(.*?)</td>`
(`re.IGNORECASE | re.DOTALL`). -/
def tdK : K :=
  litCiK "<td".data <| starGo notGt <| litCiK ">".data <| capLazyK anyc <|
  litCiK "</td>".data kdone

/-- `applications.py` lines 209-213:
`<span[^>]*class="[^"]*badge[^"]*"[^>]*>(.*?)</span>`
(`re.IGNORECASE | re.DOTALL`). -/
def badgeK : K :=
  litCiK "<span".data <| starGo notGt <| litCiK "class=\"".data <|
  starGo notQ <| litCiK "badge".data <| starGo notQ <| litCiK "\"".data <|
  starGo notGt <| litCiK ">".data <| capLazyK anyc <| litCiK "</span>".data kdone

/-!
Shallow embedding of `app/wrapper/seda_wrapper.py`.  HTTP transport is an
oracle: a GET oracle maps a URL to a response or a raised exception, a POST
oracle additionally takes the form payload.  Python exceptions are the
`PyExc` inductive; `Except PyExc` models code that may raise.
-/

/-- The exceptions that can arise in the modelled code paths. -/
inductive PyExc where
  | sessionExpired (msg : String)
  | parsingError (msg : String)
  | httpError (status : Nat)
  | transportError (msg : String)
  | attributeError (msg : String)
  | indexError (msg : String)
deriving DecidableEq, Repr

/-- Python `str(e)` for the modelled exceptions. -/
def PyExc.str : PyExc → String
  | .sessionExpired m => m
  | .parsingError m => m
  | .httpError s => toString s ++ " Error"
  | .transportError m => m
  | .attributeError m => m
  | .indexError m => m

/-- Decidable equality for `Except`, so concrete pipeline results can be
checked by `decide`. -/
instance exceptDecEq {e a : Type} [DecidableEq e] [DecidableEq a] :
    DecidableEq (Except e a) := fun x y =>
  match x, y with
  | .ok v, .ok w =>
    if h : v = w then isTrue (by rw [h])
    else isFalse (fun hc => by cases hc; exact h rfl)
  | .error v, .error w =>
    if h : v = w then isTrue (by rw [h])
    else isFalse (fun hc => by cases hc; exact h rfl)
  | .ok _, .error _ => isFalse (fun hc => by cases hc)
  | .error _, .ok _ => isFalse (fun hc => by cases hc)

/-- An HTTP response as the code observes it: final resolved URL, status
code, body text, and the `Location` header if present. -/
structure Response where
  url : String
  status : Nat
  text : String
  location : Option String
deriving DecidableEq, Repr

/-- A GET transport oracle (`self.session.get`). -/
abbrev GetOracle := String → Except PyExc Response

/-- A POST transport oracle (`self.session.post` with form payload). -/
abbrev PostOracle := String → List (String × String) → Except PyExc Response

/-- `config.py` line 15. -/
def SEDA_BASE_URL : String := "https://atap.seda.gov.my"

/-- `seda_wrapper.py` line 56, the `SEDASessionExpired` message. -/
def sessionExpiredMsg : String := "The SEDA session has expired. Please update cookies."

/-- `SEDAClient._validate_response` (lines 52-57): raise `SEDASessionExpired`
if `"/login" in response.url`, else `response.raise_for_status()` (which
raises for status codes 400-599). -/
def validate_response (r : Response) : Except PyExc Unit :=
  if strContains r.url "/login" then .error (.sessionExpired sessionExpiredMsg)
  else if 400 ≤ r.status then
    if r.status < 600 then .error (.httpError r.status) else .ok ()
  else .ok ()

/-- `SEDAClient._fetch_csrf_token` (lines 59-69). -/
def fetch_csrf_token (g : GetOracle) (url : String) : Except PyExc String := do
  let r ← g url
  let _ ← validate_response r
  match research tokenK r.text with
  | some (t :: _) => .ok t
  | _ => .error (.parsingError ("CSRF token not found at " ++ url))

/-- The ordered form payload built by `create_individual_profile`
(lines 133-140): the token twice, then the caller fields minus any
caller-supplied `_method`/`_token`. -/
def create_payload (token : String) (data : List (String × String)) :
    List (String × String) :=
  [("_token", token), ("_token", token)] ++
    data.filter (fun kv => kv.1 != "_method" && kv.1 != "_token")

/-- The ordered form payload built by `update_individual_profile`
(lines 190-198): the PUT method override first, then the token twice, then
the caller fields minus any caller-supplied `_method`/`_token`. -/
def update_payload (token : String) (data : List (String × String)) :
    List (String × String) :=
  [("_method", "PUT"), ("_token", token), ("_token", token)] ++
    data.filter (fun kv => kv.1 != "_method" && kv.1 != "_token")

/-- Result dictionary of `create_individual_profile`, as a tagged value:
`{"success": True, "profile_id": ..., "redirect_url": ..., ("message": ...)}`
or `{"success": False, "error": ...}`. -/
inductive WriteResult where
  | success (profile_id : Option String) (redirect_url : String)
      (message : Option String)
  | failure (error : String)
deriving DecidableEq, Repr

/-- Lines 146-173 of `create_individual_profile`: classify the POST response
once validation has passed.  On a 302 the `Location` header is matched
against the edit-path pattern, then tested for the collection substring;
everything else falls through to the unexpected-response failure. -/
def classify_create (r : Response) : WriteResult :=
  if r.status == 302 then
    let location := r.location.getD ""
    match research editK location with
    | some (pid :: _) => .success (some pid) location none
    | _ =>
      if strContains location "/profiles/individuals" then
        .success none location
          (some "Profile created. Check the profiles list for the new entry.")
      else .failure ("Unexpected response: " ++ toString r.status)
  else .failure ("Unexpected response: " ++ toString r.status)

/-- URL of the create form (line 127). -/
def createUrl : String := SEDA_BASE_URL ++ "/profiles/individuals"

/-- URL of the update form for a profile id (line 184). -/
def updateUrl (pid : String) : String :=
  SEDA_BASE_URL ++ "/profiles/individuals/" ++ pid ++ "/edit"

/-- The `try` body of `create_individual_profile` (lines 129-173): token
fetch, payload build, POST, validation, classification. -/
def create_body (g : GetOracle) (p : PostOracle)
    (data : List (String × String)) : Except PyExc WriteResult := do
  let token ← fetch_csrf_token g createUrl
  let r ← p createUrl (create_payload token data)
  let _ ← validate_response r
  pure (classify_create r)

/-- `SEDAClient.create_individual_profile` (lines 125-180): the whole body
runs under `except Exception`, which converts every raised exception into
the failure dictionary carrying `str(e)`. -/
def create_individual_profile (g : GetOracle) (p : PostOracle)
    (data : List (String × String)) : WriteResult :=
  match create_body g p data with
  | .ok o => o
  | .error e => .failure e.str

/-- The `try` body of `update_individual_profile` (lines 186-207). -/
def update_body (g : GetOracle) (p : PostOracle) (pid : String)
    (data : List (String × String)) : Except PyExc Bool := do
  let token ← fetch_csrf_token g (updateUrl pid)
  let r ← p (updateUrl pid) (update_payload token data)
  let _ ← validate_response r
  pure (strContains r.text "Profile updated successfully" || r.status == 200)

/-- `SEDAClient.update_individual_profile` (lines 182-211): returns a bool;
`except Exception` converts every raised exception into `False`. -/
def update_individual_profile (g : GetOracle) (p : PostOracle) (pid : String)
    (data : List (String × String)) : Bool :=
  match update_body g p pid data with
  | .ok b => b
  | .error _ => false

/-- A scraped profile row (`fetch_profile_list`, lines 90-97).  `ptype`
embeds the dictionary key `type`. -/
structure Profile where
  id : String
  ptype : String
  name : String
  registration_number : String
  category : String
  url : String
deriving DecidableEq, Repr

/-- Python `str.split(sep)` for a single-character separator (`acc` holds
the current segment in reverse). -/
def pySplitGo (sep : Char) (acc : List Char) : List Char → List String
  | [] => [String.mk acc.reverse]
  | c :: cs =>
    if c == sep then String.mk acc.reverse :: pySplitGo sep [] cs
    else pySplitGo sep (c :: acc) cs

/-- Python `url_path.split('/')` (line 89). -/
def pySplitSlash (s : String) : List String := pySplitGo '/' [] s.data

/-- Python negative indexing `l[-i]` on a list, raising `IndexError` when
out of range. -/
def pyNegIdx (l : List String) (i : Nat) : Except PyExc String :=
  match l.reverse.get? (i - 1) with
  | some v => .ok v
  | none => .error (.indexError "list index out of range")

/-- One row of `fetch_profile_list` (lines 86-97): split the href on `/`,
take `parts[-2]` as id and `parts[-3]` as type, strip the three text cells. -/
def mk_profile (m : List String) : Except PyExc Profile :=
  match m with
  | [url_path, name, reg, cat] => do
    let parts := pySplitSlash url_path
    let pid ← pyNegIdx parts 2
    let pty ← pyNegIdx parts 3
    .ok ⟨pid, pty, pyStrip name, pyStrip reg, pyStrip cat, url_path⟩
  | _ => .error (.parsingError "unexpected match arity")

/-- All profile-row matches in a page. -/
def profileRowFindall (html : String) : List (List String) :=
  refindall profileRowK html

/-- The extraction loop of `fetch_profile_list`: rows in document order; an
`IndexError` inside the loop propagates. -/
def parseProfileRows : List (List String) → Except PyExc (List Profile)
  | [] => .ok []
  | m :: ms => do
    let p ← mk_profile m
    let ps ← parseProfileRows ms
    .ok (p :: ps)

/-- The parsing part of `fetch_profile_list` (lines 79-100), from page HTML
to the profile list.  There is no fallback pattern: the primary row pattern
is the only extraction attempted. -/
def fetch_profile_list_parse (html : String) : Except PyExc (List Profile) :=
  parseProfileRows (profileRowFindall html)

/-- `SEDAClient.fetch_profile_list` (lines 71-100). -/
def fetch_profile_list (g : GetOracle) : Except PyExc (List Profile) := do
  let r ← g (SEDA_BASE_URL ++ "/profiles")
  let _ ← validate_response r
  fetch_profile_list_parse r.text

/-- One step of the dict comprehension of `fetch_individual_details`
(lines 111-112): add an input match unless its name is `_token`. -/
def inputStep (d : List (String × String)) (m : List String) :
    List (String × String) :=
  match m with
  | [n, v] => if n == "_token" then d else pyInsert n v d
  | _ => d

/-- Phase 1 of `fetch_individual_details` (lines 111-112): the dict
comprehension over all input matches, excluding the `_token` field. -/
def detailsInputs (html : String) : List (String × String) :=
  (refindall inputWK html).foldl inputStep []

/-- All select names found on the page (line 115). -/
def select_names (html : String) : List String :=
  (refindall selectNameK html).filterMap List.head?

/-- The `select_block` search of lines 117-118, reassembling `group(0)`. -/
def select_block (html name : String) : Option String :=
  match research (selectBlockK name) html with
  | some [c1, c2] =>
    some ("<select" ++ c1 ++ "name=\"" ++ name ++ "\"" ++ c2 ++ "</select>")
  | _ => none

/-- Lines 120-121: the selected option's stripped text, or empty string. -/
def select_value (block : String) : String :=
  match research optionSelK block with
  | some (t :: _) => pyStrip t
  | _ => ""

/-- One step of the select loop of `fetch_individual_details`
(lines 116-121): if the select's block is found, overwrite/insert the
selected value, else leave the dict untouched. -/
def selectStep (html : String) (d : List (String × String)) (n : String) :
    List (String × String) :=
  match select_block html n with
  | some b => pyInsert n (select_value b) d
  | none => d

/-- The parsing part of `fetch_individual_details` (lines 110-123): inputs
first, then the select loop. -/
def fetch_individual_details_parse (html : String) : List (String × String) :=
  (select_names html).foldl (selectStep html) (detailsInputs html)

/-- `SEDAClient.fetch_individual_details` (lines 102-123). -/
def fetch_individual_details (g : GetOracle) (pid : String) :
    Except PyExc (List (String × String)) := do
  let r ← g (SEDA_BASE_URL ++ "/profiles/individuals/" ++ pid ++ "/edit")
  let _ ← validate_response r
  .ok (fetch_individual_details_parse r.text)

/-!
Cookie loading (`SEDAClient._initialize_session`, lines 32-50).  The file
system read and JSON parse are summarised by a `CookieFile` value: the file
may be absent, present but unparseable, or parsed into a list of
descriptors (JSON objects with optional `name`/`value`/`domain` keys).
-/

/-- One JSON cookie descriptor as far as the loop reads it. -/
structure CookieDesc where
  name : Option String
  value : Option String
  domain : Option String
deriving DecidableEq, Repr

/-- The observable content of the cookie file. -/
inductive CookieFile where
  | absent
  | invalid (msg : String)
  | parsed (descs : List CookieDesc)
deriving DecidableEq, Repr

/-- A cookie installed into the session: name, value, domain. -/
abbrev SessionCookie := String × String × String

/-- Whether a descriptor carries both required keys. -/
def CookieDesc.ok (d : CookieDesc) : Bool := d.name.isSome && d.value.isSome

/-- The cookie a well-formed descriptor installs:
`cookie['name']`, `cookie['value']`, `cookie.get('domain', '')`. -/
def CookieDesc.toCookie (d : CookieDesc) : SessionCookie :=
  (d.name.getD "", d.value.getD "", d.domain.getD "")

/-- The `for cookie in cookie_list` loop (lines 42-47): a `KeyError` on a
missing `name`/`value` aborts the loop, but the cookies already set on the
session remain (the exception is caught by the surrounding handler). -/
def loadCookiesLoop : List CookieDesc → List SessionCookie
  | [] => []
  | d :: rest =>
    match d.name, d.value with
    | some n, some v => (n, v, d.domain.getD "") :: loadCookiesLoop rest
    | _, _ => []

/-- `SEDAClient._initialize_session` (lines 32-50): an absent file is a
logged warning and an empty cookie set; any exception while reading,
parsing or iterating is caught and logged, keeping whatever was set. -/
def initialize_session : CookieFile → List SessionCookie
  | .absent => []
  | .invalid _ => []
  | .parsed descs => loadCookiesLoop descs

/-!
Shallow embedding of the application endpoints in
`app/api/v1/applications.py`.
-/

/-- A record built by `search_applications`.  The primary row path always
sets `application_number`/`registration_number`/`category` keys (possibly to
`None`), `status` and `row_number`; the fallback path omits them, which the
embedding renders as `none` fields with `fromFallback` set. -/
structure AppRecord where
  id : String
  applicant : String
  application_number : Option String
  registration_number : Option String
  category : Option String
  status : Option String
  row_number : Option Nat
  url : String
  fromFallback : Bool
deriving DecidableEq, Repr

/-- Lines 48-84: process one primary row match; `None` when the name cell
holds no application link. -/
def mk_app_row (m : List String) : Option AppRecord :=
  match m with
  | [rowNum, nameCell, statusCell, _dateCell, _actionsCell] =>
    match research appLinkK nameCell with
    | some (appId :: nm :: _) =>
      let reg := ((research regNoK nameCell).bind List.head?).map pyStrip
      let cat := ((research categoryK nameCell).bind List.head?).map pyStrip
      let atp := ((research atpStrongK nameCell).bind List.head?).map
        (fun d => "ATP" ++ d)
      let st :=
        match research statusSpanK statusCell with
        | some (s :: _) => pyStrip s
        | _ => "Unknown"
      some { id := appId, applicant := pyStrip nm, application_number := atp,
             registration_number := reg, category := cat, status := some st,
             row_number := rowNum.toNat?,
             url := "/applications/" ++ appId ++ "/applicant",
             fromFallback := false }
    | _ => none
  | _ => none

/-- Lines 92-97: a partially-populated record from a bare application link. -/
def mk_app_link (m : List String) : AppRecord :=
  match m with
  | appId :: nm :: _ =>
    { id := appId, applicant := pyStrip nm, application_number := none,
      registration_number := none, category := none, status := none,
      row_number := none, url := "/applications/" ++ appId ++ "/applicant",
      fromFallback := true }
  | _ =>
    { id := "", applicant := "", application_number := none,
      registration_number := none, category := none, status := none,
      row_number := none, url := "", fromFallback := true }

/-- All primary application-row matches. -/
def appRowFindall (html : String) : List (List String) := refindall appRowK html

/-- All bare application-link matches. -/
def appLinkFindall (html : String) : List (List String) := refindall appLinkK html

/-- Lines 38-97 of `search_applications`: primary rows first; if that
produced nothing, the bare-link fallback. -/
def parse_applications (html : String) : List AppRecord :=
  let apps := (appRowFindall html).filterMap mk_app_row
  if apps.isEmpty then (appLinkFindall html).map mk_app_link else apps

/-- One equipment entry extracted by `get_application_details`
(lines 200-206). -/
structure EquipRecord where
  etype : Option String
  technology : Option String
  model : Option String
  capacity : Option String
  quantity : Option String
deriving DecidableEq, Repr

/-- Line 199's keyword membership test over the upper-cased joined cells. -/
def equipKeywordTest (clean : List String) : Bool :=
  let joined := pyUpper (String.intercalate " " clean)
  strContains joined "SOLAR" || strContains joined "PANEL" ||
  strContains joined "INVERTER" || strContains joined "Wp" ||
  strContains joined "kW"

/-- Lines 192-206: cells of one table row, tag-stripped and trimmed; rows
with at least four cleaned cells passing the keyword test become equipment
records (missing trailing cells resolve to `None`). -/
def mk_equip_row (row : String) : Option EquipRecord :=
  let cells := (refindall tdK row).filterMap List.head?
  let clean := cells.map (fun c => pyStrip (stripTags c))
  if 4 ≤ clean.length && equipKeywordTest clean then
    some { etype := clean.get? 0, technology := clean.get? 1,
           model := clean.get? 2, capacity := clean.get? 3,
           quantity := clean.get? 4 }
  else none

/-- Lines 189-206: all equipment entries of a detail page. -/
def app_equipment (html : String) : List EquipRecord :=
  ((refindall trK html).filterMap List.head?).filterMap mk_equip_row

/-- Lines 209-214: badge labels, tag-stripped and trimmed. -/
def app_status_badges (html : String) : List String :=
  ((refindall badgeK html).filterMap List.head?).map
    (fun b => pyStrip (stripTags b))

/-- Lines 160-186: the detail page form data (inputs minus
`_token`/`_method`, then selected select values). -/
def app_form_data (html : String) : List (String × String) :=
  let inputs := (refindall inputAK html).foldl
    (fun d m =>
      match m with
      | [n, v] => if n == "_token" || n == "_method" then d else pyInsert n v d
      | _ => d) []
  (refindall selectAK html).foldl
    (fun d m =>
      match m with
      | [n, opts] =>
        match research optionSelAK opts with
        | some (t :: _) => pyInsert n (pyStrip t) d
        | _ => d
      | _ => d) inputs

/-- The structured result of `get_application_details` (lines 216-225). -/
structure AppDetail where
  application_number : Option String
  consumer_name : Option String
  form_data : List (String × String)
  equipment : List EquipRecord
  status_badges : List String
deriving DecidableEq, Repr

/-- Lines 142-225: parse an application detail page. -/
def parse_app_detail (html : String) : AppDetail :=
  { application_number :=
      ((research atpBareK html).bind List.head?).map (fun d => "ATP" ++ d),
    consumer_name := ((research consumerK html).bind List.head?).map pyStrip,
    form_data := app_form_data html,
    equipment := app_equipment html,
    status_badges := app_status_badges html }

/-- The attribute names defined on a `SEDAClient` instance: the two fields
assigned in `__init__` (lines 26-30; `_initialize_session` assigns none) and
the class's methods.  `base_url` is not among them. -/
def clientAttrs : List String :=
  ["cookies_path", "session", "_initialize_session", "_validate_response",
   "_fetch_csrf_token", "fetch_profile_list", "fetch_individual_details",
   "create_individual_profile", "update_individual_profile"]

/-- Python's runtime message for the failing attribute access. -/
def baseUrlAttrMsg : String := "'SEDAClient' object has no attribute 'base_url'"

/-- Evaluation of `client.base_url`: an `AttributeError` because the name is
not defined on the class or the instance. -/
def getattr_base_url : Except PyExc String :=
  if clientAttrs.contains "base_url" then .ok "" else
    .error (.attributeError baseUrlAttrMsg)

/-- Lines 23-32 of `search_applications`: assemble the query string (`ca`,
`keyword`, `status`, in that order; empty strings are falsy and skipped). -/
def buildQuery (keyword ca status : Option String) : String :=
  let params :=
    (match ca with | some c => if c.isEmpty then [] else ["ca=" ++ c] | none => []) ++
    (match keyword with | some k => if k.isEmpty then [] else ["keyword=" ++ k] | none => []) ++
    (match status with | some s => if s.isEmpty then [] else ["status=" ++ s] | none => [])
  let qs := String.intercalate "&" params
  if qs.isEmpty then "/applications" else "/applications?" ++ qs

/-- A FastAPI handler outcome: either a JSON payload or an `HTTPException`
with a status code and detail string. -/
inductive EndpointReply (α : Type) where
  | ok (payload : α)
  | err (status : Nat) (detail : String)
deriving DecidableEq, Repr

/-- The `try` body of `search_applications` (lines 19-108): client
construction, query building, `client.base_url` evaluation, GET, validation,
parsing. -/
def search_applications_body (g : GetOracle) (cookies : CookieFile)
    (keyword ca status : Option String) :
    Except PyExc (Nat × List AppRecord) := do
  let _ := initialize_session cookies
  let base ← getattr_base_url
  let r ← g (base ++ buildQuery keyword ca status)
  let _ ← validate_response r
  let apps := parse_applications r.text
  .ok (apps.length, apps)

/-- `search_applications` (lines 9-113) with its exception handlers:
`SEDASessionExpired` becomes 401, any other exception becomes 500. -/
def search_applications (g : GetOracle) (cookies : CookieFile)
    (keyword ca status : Option String) : EndpointReply (Nat × List AppRecord) :=
  match search_applications_body g cookies keyword ca status with
  | .ok v => .ok v
  | .error (.sessionExpired _) => .err 401 "Session expired. Please update cookies."
  | .error e => .err 500 ("Failed to search applications: " ++ e.str)

/-- The `try` body of `get_application_details` (lines 135-225). -/
def get_application_details_body (g : GetOracle) (cookies : CookieFile)
    (application_id : String) : Except PyExc AppDetail := do
  let _ := initialize_session cookies
  let base ← getattr_base_url
  let r ← g (base ++ "/applications/" ++ application_id ++ "/applicant")
  let _ ← validate_response r
  .ok (parse_app_detail r.text)

/-- `get_application_details` (lines 129-230) with its exception handlers. -/
def get_application_details (g : GetOracle) (cookies : CookieFile)
    (application_id : String) : EndpointReply AppDetail :=
  match get_application_details_body g cookies application_id with
  | .ok v => .ok v
  | .error (.sessionExpired _) => .err 401 "Session expired. Please update cookies."
  | .error e => .err 500 ("Failed to get application details: " ++ e.str)

/-- The `try` body of `get_application_raw_html` (lines 239-251). -/
def get_application_raw_html_body (g : GetOracle) (cookies : CookieFile)
    (application_id : String) : Except PyExc (Nat × String) := do
  let _ := initialize_session cookies
  let base ← getattr_base_url
  let r ← g (base ++ "/applications/" ++ application_id ++ "/applicant")
  let _ ← validate_response r
  .ok (r.text.length, r.text.take 2000)

/-- `get_application_raw_html` (lines 233-256) with its exception handlers. -/
def get_application_raw_html (g : GetOracle) (cookies : CookieFile)
    (application_id : String) : EndpointReply (Nat × String) :=
  match get_application_raw_html_body g cookies application_id with
  | .ok v => .ok v
  | .error (.sessionExpired _) => .err 401 "Session expired. Please update cookies."
  | .error e => .err 500 ("Failed to get application: " ++ e.str)

/-!
Claim-side definitions.  Each follows the wording of the specification (not
the code) and is used to compare the spec's demand with the code's
behaviour.
-/

/-- Position of the first occurrence of `pat`: the remaining input from that
occurrence on, scanning left to right. -/
def afterSub (pat : List Char) : List Char → Option (List Char)
  | [] => none
  | c :: cs =>
    if pat.isPrefixOf (c :: cs) then some ((c :: cs).drop pat.length)
    else afterSub pat cs

/-- The path component of a URL, as the claims speak of "the final resolved
URL's path": everything from the first `/` after the `scheme://host` part up
to a query or fragment separator (a URL with no scheme is all path). -/
def urlPath (u : String) : String :=
  let tail :=
    match afterSub "://".data u.data with
    | some rest => rest.dropWhile (· != '/')
    | none => u.data
  String.mk (tail.takeWhile (fun c => c != '?' && c != '#'))

/-- The payload shape claim C2 demands: the token field twice, followed for
updates by the method-override field, followed by the caller fields minus
any caller-supplied token/method entries. -/
def spec_update_payload (token : String) (data : List (String × String)) :
    List (String × String) :=
  [("_token", token), ("_token", token), ("_method", "PUT")] ++
    data.filter (fun kv => kv.1 != "_method" && kv.1 != "_token")

/-- The WriteOutcome claim C5 demands of `update`: the same redirect-shape
rules as create (redirect target matching the edit path gives Success with
the id, redirect to the collection path gives Success with null id, any
other status gives Failure carrying the status code). -/
def spec_update_outcome (r : Response) : WriteResult :=
  if r.status == 302 then
    let location := r.location.getD ""
    match research editK location with
    | some (pid :: _) => .success (some pid) location none
    | _ =>
      if strContains location "/profiles/individuals" then
        .success none location none
      else .failure (toString r.status)
  else .failure (toString r.status)

/-- Claim C7's "bare resource links of the known link-path shape" for the
profile listing: occurrences of an individual-profile edit path. -/
def spec_bare_profile_links (html : String) : Nat :=
  (refindall editK html).length

/-- Claim C8's "has all surrounding markup tags stripped": removing every
markup tag changes nothing. -/
def spec_tag_stripped (s : String) : Bool := stripTags s == s

/-!
Shared helper lemmas.
-/

/-- `listContains` decides the infix relation. -/
theorem listContains_infix_iff {pat l : List Char} :
    listContains pat l = true ↔ pat <:+: l := by
  induction l with
  | nil =>
    simp [listContains, List.isEmpty_iff]
  | cons c cs ih =>
    rw [listContains, Bool.or_eq_true, ih, List.infix_cons_iff]
    constructor
    · rintro (h | h)
      · exact Or.inl ( List.isPrefixOf_iff_prefix.mp h)
      · exact Or.inr h
    · rintro (h | h)
      · exact Or.inl ( List.isPrefixOf_iff_prefix.mpr h)
      · exact Or.inr h

/-- `afterSub` returns a suffix of its input. -/
theorem afterSub_suffix {pat u r : List Char}
    (hr : afterSub pat u = some r) : r <:+ u := by
  induction u with
  | nil => simp [afterSub] at hr
  | cons c cs ih =>
    by_cases hp : pat.isPrefixOf (c :: cs) = true
    · rw [afterSub, if_pos hp] at hr
      cases hr
      exact List.drop_suffix _ _
    · rw [afterSub, if_neg hp] at hr
      exact (ih hr).trans ( List.suffix_cons c cs)

/-- A marker occurring in a URL's path occurs in the URL. -/
theorem strContains_of_urlPath {u m : String}
    (h : strContains (urlPath u) m = true) : strContains u m = true := by
  unfold strContains at h ⊢
  unfold urlPath at h
  rw [listContains_infix_iff] at h ⊢
  cases hs : afterSub "://".data u.data with
  | none =>
    rw [hs] at h
    exact h.trans ( List.takeWhile_prefix _).isInfix
  | some rest =>
    rw [hs] at h
    have h1 : m.data <:+: rest :=
      (h.trans ( List.takeWhile_prefix _).isInfix).trans
        ( List.dropWhile_suffix _).isInfix
    exact h1.trans (afterSub_suffix hs).isInfix

/-- A string contains its own second append component. -/
theorem strContains_append_self (a b : String) :
    strContains (a ++ b) b = true := by
  unfold strContains
  rw [listContains_infix_iff, String.data_append]
  exact ( List.suffix_append a.data b.data).isInfix

/-- Lookup after inserting the same key. -/
theorem lookupStr_pyInsert_self (k v : String) (d : List (String × String)) :
    lookupStr k (pyInsert k v d) = some v := by
  induction d with
  | nil => simp [pyInsert, lookupStr]
  | cons kv rest ih =>
    obtain ⟨k', v'⟩ := kv
    by_cases hk : k' = k
    · subst hk
      simp [pyInsert, lookupStr]
    · simp [pyInsert, lookupStr, hk, ih]

/-- Lookup after inserting a different key. -/
theorem lookupStr_pyInsert_ne {k k' : String} (hne : k' ≠ k) (v : String)
    (d : List (String × String)) :
    lookupStr k' (pyInsert k v d) = lookupStr k' d := by
  induction d with
  | nil => simp [pyInsert, lookupStr, Ne.symm hne]
  | cons kv rest ih =>
    obtain ⟨k0, v0⟩ := kv
    by_cases hk : k0 = k
    · subst hk
      simp [pyInsert, lookupStr, Ne.symm hne]
    · by_cases h0 : k0 = k'
      · subst h0
        simp [pyInsert, lookupStr, hk]
      · simp [pyInsert, lookupStr, hk, h0, ih]

/-- Inserting never removes a present key. -/
theorem lookupStr_pyInsert_isSome {n : String} {d : List (String × String)}
    (k v : String) (h : (lookupStr n d).isSome = true) :
    (lookupStr n (pyInsert k v d)).isSome = true := by
  by_cases hn : n = k
  · subst hn
    rw [lookupStr_pyInsert_self]
    rfl
  · rw [lookupStr_pyInsert_ne hn]
    exact h

/-- `inputStep` never removes a present key. -/
theorem inputStep_preserves {n : String} {d : List (String × String)}
    (m : List String) (h : (lookupStr n d).isSome = true) :
    (lookupStr n (inputStep d m)).isSome = true := by
  match m with
  | [a, b] =>
    by_cases ht : a == "_token"
    · simpa [inputStep, ht] using h
    · simp only [inputStep, ht, if_false]
      exact lookupStr_pyInsert_isSome a b h
  | [] => exact h
  | [_] => exact h
  | _ :: _ :: _ :: _ => exact h

/-- Folding `inputStep` never removes a present key. -/
theorem foldl_inputStep_preserves {n : String} :
    ∀ (ms : List (List String)) (d : List (String × String)),
      (lookupStr n d).isSome = true →
      (lookupStr n (ms.foldl inputStep d)).isSome = true
  | [], _, h => h
  | m :: ms, d, h =>
    foldl_inputStep_preserves ms (inputStep d m) (inputStep_preserves m h)

/-- After folding `inputStep` over the matches, every matched input name
other than `_token` is present. -/
theorem foldl_inputStep_mem {n v : String} (hn : n ≠ "_token") :
    ∀ (ms : List (List String)) (d : List (String × String)),
      [n, v] ∈ ms →
      (lookupStr n (ms.foldl inputStep d)).isSome = true := by
  intro ms
  induction ms with
  | nil => intro d h; cases h
  | cons m ms ih =>
    intro d h
    rcases List.mem_cons.mp h with h | h
    · subst h
      rw [List.foldl_cons]
      apply foldl_inputStep_preserves
      have he : inputStep d [n, v] = pyInsert n v d := by
        simp [inputStep, hn]
      rw [he, lookupStr_pyInsert_self]
      rfl
    · exact ih _ h

/-- `selectStep` never removes a present key. -/
theorem selectStep_preserves {html n : String} {d : List (String × String)}
    (m : String) (h : (lookupStr n d).isSome = true) :
    (lookupStr n (selectStep html d m)).isSome = true := by
  unfold selectStep
  cases select_block html m with
  | none => exact h
  | some b => exact lookupStr_pyInsert_isSome _ _ h

/-- Folding `selectStep` never removes a present key. -/
theorem foldl_selectStep_preserves {html n : String} :
    ∀ (names : List String) (d : List (String × String)),
      (lookupStr n d).isSome = true →
      (lookupStr n (names.foldl (selectStep html) d)).isSome = true
  | [], _, h => h
  | m :: ms, d, h =>
    foldl_selectStep_preserves ms (selectStep html d m)
      (selectStep_preserves m h)

/-- Folding `selectStep` over names not containing `n` leaves key `n`'s
value unchanged. -/
theorem foldl_selectStep_not_mem {html n : String} :
    ∀ (names : List String) (d : List (String × String)), n ∉ names →
      lookupStr n (names.foldl (selectStep html) d) = lookupStr n d := by
  intro names
  induction names with
  | nil => intro d _; rfl
  | cons m ms ih =>
    intro d h
    have hm : n ≠ m := fun he => h (he ▸ List.mem_cons_self m ms)
    have hms : n ∉ ms := fun he => h (List.mem_cons_of_mem m he)
    rw [List.foldl_cons, ih _ hms]
    unfold selectStep
    cases select_block html m with
    | none => rfl
    | some b => exact lookupStr_pyInsert_ne hm _ _

/-- After the select loop, every select name whose block was found maps to
that block's selected value. -/
theorem foldl_selectStep_mem {html n : String} {b : String}
    (hb : select_block html n = some b) :
    ∀ (names : List String) (d : List (String × String)), n ∈ names →
      lookupStr n (names.foldl (selectStep html) d) = some (select_value b) := by
  intro names
  induction names with
  | nil => intro d h; cases h
  | cons m ms ih =>
    intro d h
    by_cases hr : n ∈ ms
    · exact ih _ hr
    · have hm : n = m := by
        rcases List.mem_cons.mp h with h | h
        · exact h
        · exact absurd h hr
      subst hm
      rw [List.foldl_cons, foldl_selectStep_not_mem ms _ hr]
      unfold selectStep
      rw [hb, lookupStr_pyInsert_self]

/-- Caller fields surviving the `_method`/`_token` filter contribute no
token field to the payload. -/
theorem countP_filter_token (data : List (String × String)) :
    ((data.filter (fun kv => kv.1 != "_method" && kv.1 != "_token")).countP
      (fun kv => kv.1 == "_token")) = 0 := by
  rw [ List.countP_eq_zero]
  intro kv hkv
  have h2 := ( List.mem_filter.mp hkv).2
  simp only [Bool.and_eq_true, bne_iff_ne, ne_eq] at h2
  simpa using h2.2

/-- Caller fields surviving the `_method`/`_token` filter contribute no
method-override field to the payload. -/
theorem countP_filter_method (data : List (String × String)) :
    ((data.filter (fun kv => kv.1 != "_method" && kv.1 != "_token")).countP
      (fun kv => kv.1 == "_method")) = 0 := by
  rw [ List.countP_eq_zero]
  intro kv hkv
  have h2 := ( List.mem_filter.mp hkv).2
  simp only [Bool.and_eq_true, bne_iff_ne, ne_eq] at h2
  simpa using h2.1

/-- A successfully built profile row has whitespace-trimmed text fields
(and nothing more: `pyStrip` is all that is applied to them). -/
theorem mk_profile_fields {m : List String} {p : Profile}
    (h : mk_profile m = .ok p) :
    ∃ u nm rg ct, m = [u, nm, rg, ct] ∧ p.name = pyStrip nm ∧
      p.registration_number = pyStrip rg ∧ p.category = pyStrip ct := by
  match m with
  | [] => exact absurd h (by simp [mk_profile])
  | [_] => exact absurd h (by simp [mk_profile])
  | [_, _] => exact absurd h (by simp [mk_profile])
  | [_, _, _] => exact absurd h (by simp [mk_profile])
  | u :: nm :: rg :: ct :: _ :: _ => exact absurd h (by simp [mk_profile])
  | [u, nm, rg, ct] =>
    refine ⟨u, nm, rg, ct, rfl, ?_⟩
    simp only [mk_profile] at h
    cases h1 : pyNegIdx (pySplitSlash u) 2 with
    | error e => rw [h1] at h; exact absurd h (by simp [Bind.bind, Except.bind])
    | ok pid =>
      cases h2 : pyNegIdx (pySplitSlash u) 3 with
      | error e =>
        rw [h1, h2] at h
        exact absurd h (by simp [Bind.bind, Except.bind])
      | ok pty =>
        rw [h1, h2] at h
        simp only [Bind.bind, Except.bind, Except.ok.injEq] at h
        rw [← h]
        exact ⟨rfl, rfl, rfl⟩

/-- Members of a parsed profile list come from profile-row matches. -/
theorem parseProfileRows_mem {p : Profile} :
    ∀ {ms : List (List String)} {l : List Profile},
      parseProfileRows ms = .ok l → p ∈ l →
      ∃ m, mk_profile m = .ok p := by
  intro ms
  induction ms with
  | nil =>
    intro l h hp
    simp only [parseProfileRows, Except.ok.injEq] at h
    rw [← h] at hp
    cases hp
  | cons m ms ih =>
    intro l h hp
    simp only [parseProfileRows] at h
    cases h1 : mk_profile m with
    | error e => rw [h1] at h; exact absurd h (by simp [Bind.bind, Except.bind])
    | ok p0 =>
      rw [h1] at h
      cases h2 : parseProfileRows ms with
      | error e =>
        rw [h2] at h
        exact absurd h (by simp [Bind.bind, Except.bind])
      | ok l0 =>
        rw [h2] at h
        simp only [Bind.bind, Except.bind, Except.ok.injEq] at h
        rw [← h] at hp
        rcases List.mem_cons.mp hp with hp | hp
        · exact ⟨m, hp ▸ h1⟩
        · exact ih h2 hp

/-- A successfully built application row record has a trimmed applicant and
a trimmed status. -/
theorem mk_app_row_fields {m : List String} {a : AppRecord}
    (h : mk_app_row m = some a) :
    (∃ raw, a.applicant = pyStrip raw) ∧
      (∀ s, a.status = some s → ∃ raw, s = pyStrip raw) := by
  match m with
  | [] => exact absurd h (by simp [mk_app_row])
  | [_] => exact absurd h (by simp [mk_app_row])
  | [_, _] => exact absurd h (by simp [mk_app_row])
  | [_, _, _] => exact absurd h (by simp [mk_app_row])
  | [_, _, _, _] => exact absurd h (by simp [mk_app_row])
  | _ :: _ :: _ :: _ :: _ :: _ :: _ => exact absurd h (by simp [mk_app_row])
  | [rowNum, nameCell, statusCell, dateCell, actionsCell] =>
    simp only [mk_app_row] at h
    cases hl : research appLinkK nameCell with
    | none => rw [hl] at h; cases h
    | some caps =>
      rw [hl] at h
      match caps with
      | [] => cases h
      | [_] => cases h
      | appId :: nm :: rest =>
        cases hs : research statusSpanK statusCell with
        | none =>
          rw [hs] at h
          simp only [Option.some.injEq] at h
          refine ⟨⟨nm, by rw [← h]⟩, ?_⟩
          intro s hst
          rw [← h] at hst
          simp only [Option.some.injEq] at hst
          exact ⟨"Unknown", by rw [← hst]; decide⟩
        | some scaps =>
          rw [hs] at h
          match scaps with
          | [] =>
            simp only [Option.some.injEq] at h
            refine ⟨⟨nm, by rw [← h]⟩, ?_⟩
            intro s hst
            rw [← h] at hst
            simp only [Option.some.injEq] at hst
            exact ⟨"Unknown", by rw [← hst]; decide⟩
          | s0 :: srest =>
            simp only [Option.some.injEq] at h
            refine ⟨⟨nm, by rw [← h]⟩, ?_⟩
            intro s hst
            rw [← h] at hst
            simp only [Option.some.injEq] at hst
            exact ⟨s0, by rw [← hst]⟩

/-- A fallback application record has a trimmed applicant and no status. -/
theorem mk_app_link_fields (m : List String) :
    (∃ raw, (mk_app_link m).applicant = pyStrip raw) ∧
      (mk_app_link m).status = none := by
  match m with
  | [] => exact ⟨⟨"", rfl⟩, rfl⟩
  | [x] => exact ⟨⟨"", rfl⟩, rfl⟩
  | appId :: nm :: rest => exact ⟨⟨nm, rfl⟩, rfl⟩

/-- A successfully built equipment record's fields are tag-stripped and
trimmed cell values. -/
theorem mk_equip_row_fields {row : String} {e : EquipRecord}
    (h : mk_equip_row row = some e) :
    (∀ v, e.etype = some v → ∃ raw, v = pyStrip (stripTags raw)) ∧
      (∀ v, e.technology = some v → ∃ raw, v = pyStrip (stripTags raw)) ∧
      (∀ v, e.model = some v → ∃ raw, v = pyStrip (stripTags raw)) ∧
      (∀ v, e.capacity = some v → ∃ raw, v = pyStrip (stripTags raw)) ∧
      (∀ v, e.quantity = some v → ∃ raw, v = pyStrip (stripTags raw)) := by
  simp only [mk_equip_row] at h
  set cells := (refindall tdK row).filterMap List.head? with hc
  set clean := cells.map (fun c => pyStrip (stripTags c)) with hclean
  by_cases hg : (decide (4 ≤ clean.length) && equipKeywordTest clean) = true
  · rw [if_pos hg] at h
    simp only [Option.some.injEq] at h
    have hfield : ∀ i v, clean.get? i = some v →
        ∃ raw, v = pyStrip (stripTags raw) := by
      intro i v hv
      rw [hclean, List.get?_map] at hv
      cases hc2 : cells.get? i with
      | none => rw [hc2] at hv; cases hv
      | some raw =>
        rw [hc2] at hv
        rw [Option.map_some'] at hv
        exact ⟨raw, (Option.some.injEq _ _ |>.mp hv).symm⟩
    refine ⟨?_, ?_, ?_, ?_, ?_⟩ <;> intro v hv <;> rw [← h] at hv
    · exact hfield 0 v hv
    · exact hfield 1 v hv
    · exact hfield 2 v hv
    · exact hfield 3 v hv
    · exact hfield 4 v hv
  · rw [if_neg hg] at h
    cases h

/-- Loading a list of well-formed descriptors installs them all, in order. -/
theorem loadCookiesLoop_all_ok :
    ∀ (descs : List CookieDesc), (∀ d ∈ descs, d.ok = true) →
      loadCookiesLoop descs = descs.map CookieDesc.toCookie := by
  intro descs
  induction descs with
  | nil => intro _; rfl
  | cons d rest ih =>
    intro h
    have hd := h d (List.mem_cons_self d rest)
    simp only [CookieDesc.ok, Bool.and_eq_true, Option.isSome_iff_exists] at hd
    obtain ⟨⟨n, hn⟩, v, hv⟩ := hd
    rw [List.map_cons, ← ih (fun x hx => h x (List.mem_cons_of_mem d hx))]
    simp [loadCookiesLoop, hn, hv, CookieDesc.toCookie]

/-- Loading stops at the first malformed descriptor, keeping the cookies
already installed. -/
theorem loadCookiesLoop_stops :
    ∀ (good : List CookieDesc) (bad : CookieDesc) (rest : List CookieDesc),
      (∀ d ∈ good, d.ok = true) → bad.ok = false →
      loadCookiesLoop (good ++ bad :: rest) = good.map CookieDesc.toCookie := by
  intro good
  induction good with
  | nil =>
    intro bad rest _ hbad
    simp only [CookieDesc.ok, Bool.and_eq_false_iff] at hbad
    rcases hbad with h | h
    · cases hn : bad.name with
      | none => simp [loadCookiesLoop, hn]
      | some n => rw [hn] at h; simp [Option.isSome] at h
    · cases hv : bad.value with
      | none =>
        cases hn : bad.name with
        | none => simp [loadCookiesLoop, hn]
        | some n => simp [loadCookiesLoop, hn, hv]
      | some v => rw [hv] at h; simp [Option.isSome] at h
  | cons d good ih =>
    intro bad rest h hbad
    have hd := h d (List.mem_cons_self d good)
    simp only [CookieDesc.ok, Bool.and_eq_true, Option.isSome_iff_exists] at hd
    obtain ⟨⟨n, hn⟩, v, hv⟩ := hd
    rw [List.cons_append, List.map_cons,
      ← ih bad rest (fun x hx => h x (List.mem_cons_of_mem d hx)) hbad]
    simp [loadCookiesLoop, hn, hv, CookieDesc.toCookie]

/-!
Claim theorems.
-/

/-- C1, counterexample: when the token fetch hits a login redirect, the
`try` body of `create_individual_profile` does raise `SEDASessionExpired`,
but the `except Exception` handler catches it and returns the failure
dictionary — the exception does not propagate to the caller; likewise
`update_individual_profile` returns `False`.  This refutes the claim that
`SessionExpired` is the one exception that propagates out of create/update. -/
theorem c1_counterexample :
    create_body
      (fun _ => .ok ⟨"https://atap.seda.gov.my/login", 200, "", none⟩)
      (fun _ _ => .error (.transportError "unused")) [] =
      .error (.sessionExpired sessionExpiredMsg) ∧
    create_individual_profile
      (fun _ => .ok ⟨"https://atap.seda.gov.my/login", 200, "", none⟩)
      (fun _ _ => .error (.transportError "unused")) [] =
      .failure sessionExpiredMsg ∧
    update_body
      (fun _ => .ok ⟨"https://atap.seda.gov.my/login", 200, "", none⟩)
      (fun _ _ => .error (.transportError "unused")) "7" [] =
      .error (.sessionExpired sessionExpiredMsg) ∧
    update_individual_profile
      (fun _ => .ok ⟨"https://atap.seda.gov.my/login", 200, "", none⟩)
      (fun _ _ => .error (.transportError "unused")) "7" [] = false := by
  refine ⟨rfl, rfl, rfl, rfl⟩

/-- C1, amended: every exception raised during token fetch, submission or
response validation — `SEDASessionExpired` included — is caught; create
converts it into the failure dictionary carrying `str(e)`, update converts
it into `False`; nothing propagates to the caller. -/
theorem c1_amended (g : GetOracle) (p : PostOracle)
    (data : List (String × String)) (pid : String) (e : PyExc) :
    (create_body g p data = .error e →
      create_individual_profile g p data = .failure e.str) ∧
    (update_body g p pid data = .error e →
      update_individual_profile g p pid data = false) := by
  constructor
  · intro h
    simp [create_individual_profile, h]
  · intro h
    simp [update_individual_profile, h]

/-- C1, witness for the amended theorem at a transport failure. -/
theorem c1_witness :
    create_individual_profile (fun _ => .error (.transportError "boom"))
      (fun _ _ => .error (.transportError "boom")) [] = .failure "boom" ∧
    update_individual_profile (fun _ => .error (.transportError "boom"))
      (fun _ _ => .error (.transportError "boom")) "1" [] = false := by
  refine ⟨?_, ?_⟩
  · exact (c1_amended (fun _ => .error (.transportError "boom"))
      (fun _ _ => .error (.transportError "boom")) [] "1"
      (.transportError "boom")).1 rfl
  · exact (c1_amended (fun _ => .error (.transportError "boom"))
      (fun _ _ => .error (.transportError "boom")) [] "1"
      (.transportError "boom")).2 rfl

/-- C2, counterexample: in the update payload the method-override field
precedes the two token fields, whereas the claim requires the token fields
first, followed by the method override. -/
theorem c2_counterexample :
    update_payload "T" [("n", "B")] =
      [("_method", "PUT"), ("_token", "T"), ("_token", "T"), ("n", "B")] ∧
    spec_update_payload "T" [("n", "B")] =
      [("_token", "T"), ("_token", "T"), ("_method", "PUT"), ("n", "B")] ∧
    update_payload "T" [("n", "B")] ≠ spec_update_payload "T" [("n", "B")] := by
  refine ⟨rfl, rfl, by decide⟩

/-- C2, amended: both payloads carry the token field with the fetched value
exactly twice and every caller field except `_token`/`_method` in order, and
the update payload carries exactly one method-override field — but for
updates the method override comes first, before the two token fields. -/
theorem c2_amended (token : String) (data : List (String × String)) :
    create_payload token data =
      ("_token", token) :: ("_token", token) ::
        data.filter (fun kv => kv.1 != "_method" && kv.1 != "_token") ∧
    update_payload token data =
      ("_method", "PUT") :: ("_token", token) :: ("_token", token) ::
        data.filter (fun kv => kv.1 != "_method" && kv.1 != "_token") ∧
    (create_payload token data).countP (fun kv => kv.1 == "_token") = 2 ∧
    (update_payload token data).countP (fun kv => kv.1 == "_token") = 2 ∧
    (create_payload token data).countP (fun kv => kv.1 == "_method") = 0 ∧
    (update_payload token data).countP (fun kv => kv.1 == "_method") = 1 := by
  refine ⟨rfl, rfl, ?_, ?_, ?_, ?_⟩ <;>
    simp [create_payload, update_payload, List.countP_cons,
      countP_filter_token, countP_filter_method]

/-- C3: `_validate_response` raises `SEDASessionExpired` whenever the final
URL's path contains the `/login` marker, regardless of status; only when the
URL carries no marker does a 400-599 status raise the HTTP error with that
status, and a marker-free non-error status passes. -/
theorem c3_confirmed (r : Response) :
    (strContains (urlPath r.url) "/login" = true →
      validate_response r = .error (.sessionExpired sessionExpiredMsg)) ∧
    (strContains r.url "/login" = false →
      (400 ≤ r.status → r.status < 600 →
        validate_response r = .error (.httpError r.status)) ∧
      (r.status < 400 ∨ 600 ≤ r.status → validate_response r = .ok ())) := by
  constructor
  · intro h
    have hu := strContains_of_urlPath h
    simp [validate_response, hu]
  · intro h
    constructor
    · intro h1 h2
      simp [validate_response, h, h1, h2]
    · rintro (h1 | h1)
      · simp [validate_response, h, Nat.not_le.mpr h1]
      · have h4 : 400 ≤ r.status := le_trans (by norm_num) h1
        simp [validate_response, h, h4, Nat.not_lt.mpr h1]

/-- C3, witness: a 200 login-page redirect raises `SEDASessionExpired`, a
marker-free 404 raises the HTTP error, a marker-free 200 passes. -/
theorem c3_witness :
    validate_response ⟨"https://atap.seda.gov.my/login", 200, "", none⟩ =
      .error (.sessionExpired sessionExpiredMsg) ∧
    validate_response ⟨"https://atap.seda.gov.my/profiles", 404, "", none⟩ =
      .error (.httpError 404) ∧
    validate_response ⟨"https://atap.seda.gov.my/profiles", 200, "", none⟩ =
      .ok () := by
  refine ⟨?_, ?_, ?_⟩
  · exact (c3_confirmed ⟨"https://atap.seda.gov.my/login", 200, "", none⟩).1
      (by decide)
  · exact ((c3_confirmed
      ⟨"https://atap.seda.gov.my/profiles", 404, "", none⟩).2 (by decide)).1
      (by decide) (by decide)
  · exact ((c3_confirmed
      ⟨"https://atap.seda.gov.my/profiles", 200, "", none⟩).2 (by decide)).2
      (Or.inl (by decide))

/-- C4: classification of the create response — a 302 whose `Location`
matches the individual edit path yields Success with the extracted id and
the raw redirect target; a 302 to the bare collection path yields Success
with a null id; any non-302 status yields Failure whose reason contains the
raw status code. -/
theorem c4_confirmed (r : Response) (pid : String) :
    (r.status = 302 → research editK (r.location.getD "") = some [pid] →
      classify_create r = .success (some pid) (r.location.getD "") none) ∧
    (r.status = 302 → research editK (r.location.getD "") = none →
      strContains (r.location.getD "") "/profiles/individuals" = true →
      classify_create r =
        .success none (r.location.getD "")
          (some "Profile created. Check the profiles list for the new entry.")) ∧
    (r.status ≠ 302 →
      classify_create r =
        .failure ("Unexpected response: " ++ toString r.status) ∧
      strContains ("Unexpected response: " ++ toString r.status)
        (toString r.status) = true) := by
  refine ⟨?_, ?_, ?_⟩
  · intro h302 hloc
    simp [classify_create, h302, hloc]
  · intro h302 hloc hcoll
    simp [classify_create, h302, hloc, hcoll]
  · intro h302
    refine ⟨?_, strContains_append_self _ _⟩
    simp [classify_create, h302]

/-- C4, witness: an edit redirect, a bare-collection redirect, and a plain
200 response. -/
theorem c4_witness :
    classify_create ⟨"u", 302, "",
        some "https://atap.seda.gov.my/profiles/individuals/7/edit"⟩ =
      .success (some "7")
        "https://atap.seda.gov.my/profiles/individuals/7/edit" none ∧
    classify_create ⟨"u", 302, "",
        some "https://atap.seda.gov.my/profiles/individuals"⟩ =
      .success none "https://atap.seda.gov.my/profiles/individuals"
        (some "Profile created. Check the profiles list for the new entry.") ∧
    classify_create ⟨"u", 200, "", none⟩ =
      .failure "Unexpected response: 200" := by
  refine ⟨?_, ?_, ?_⟩
  · exact (c4_confirmed ⟨"u", 302, "",
      some "https://atap.seda.gov.my/profiles/individuals/7/edit"⟩ "7").1
      rfl (by decide)
  · exact (c4_confirmed ⟨"u", 302, "",
      some "https://atap.seda.gov.my/profiles/individuals"⟩ "0").2.1
      rfl (by decide) (by decide)
  · exact ((c4_confirmed ⟨"u", 200, "", none⟩ "0").2.2 (by decide)).1

/-- C5, counterexample: a successful update redirect (302 whose `Location`
matches the edit path, empty body) must be `Success{resource_id = "7"}`
under the claim's redirect-shape rules, but `update_individual_profile`
returns `False` for it — it returns a bool computed from the body text and
a status-200 check, not a WriteOutcome classified by redirect shape. -/
theorem c5_counterexample :
    update_individual_profile
      (fun _ => .ok ⟨"https://atap.seda.gov.my/profiles/individuals/7/edit",
        200, "name=\"_token\" value=\"t1\"", none⟩)
      (fun _ _ => .ok ⟨"https://atap.seda.gov.my/profiles/individuals/7",
        302, "", some "https://atap.seda.gov.my/profiles/individuals/7/edit"⟩)
      "7" [] = false ∧
    spec_update_outcome
      ⟨"https://atap.seda.gov.my/profiles/individuals/7", 302, "",
        some "https://atap.seda.gov.my/profiles/individuals/7/edit"⟩ =
      .success (some "7")
        "https://atap.seda.gov.my/profiles/individuals/7/edit" none := by
  refine ⟨by decide, by decide⟩

/-- C5, amended: `update_individual_profile` returns a boolean, not a
WriteOutcome; when the pipeline completes it is true exactly when the
response body contains the success banner or the status is 200 — no
redirect-shape classification is applied. -/
theorem c5_amended (g : GetOracle) (p : PostOracle) (pid : String)
    (data : List (String × String)) (r1 : Response) (t : String)
    (r2 : Response) :
    g (updateUrl pid) = .ok r1 → validate_response r1 = .ok () →
    research tokenK r1.text = some [t] →
    p (updateUrl pid) (update_payload t data) = .ok r2 →
    validate_response r2 = .ok () →
    update_individual_profile g p pid data =
      (strContains r2.text "Profile updated successfully" ||
        r2.status == 200) := by
  intro hg hv1 ht hp hv2
  simp only [update_individual_profile, update_body, fetch_csrf_token, hg,
    Bind.bind, Except.bind, hv1, ht, hp, hv2, Functor.map, Except.map,
    pure, Except.pure]

/-- C5, witness for the amended theorem: the concrete successful-redirect
pipeline from the counterexample evaluates to `false`. -/
theorem c5_witness :
    update_individual_profile
      (fun _ => .ok ⟨"https://atap.seda.gov.my/profiles/individuals/9/edit",
        200, "name=\"_token\" value=\"t2\"", none⟩)
      (fun _ _ => .ok ⟨"https://atap.seda.gov.my/profiles/individuals/9",
        302, "", some "https://atap.seda.gov.my/profiles/individuals/9/edit"⟩)
      "9" [] = false := by
  have h := c5_amended
    (fun _ => .ok ⟨"https://atap.seda.gov.my/profiles/individuals/9/edit",
      200, "name=\"_token\" value=\"t2\"", none⟩)
    (fun _ _ => .ok ⟨"https://atap.seda.gov.my/profiles/individuals/9",
      302, "", some "https://atap.seda.gov.my/profiles/individuals/9/edit"⟩)
    "9" []
    ⟨"https://atap.seda.gov.my/profiles/individuals/9/edit", 200,
      "name=\"_token\" value=\"t2\"", none⟩
    "t2"
    ⟨"https://atap.seda.gov.my/profiles/individuals/9", 302, "",
      some "https://atap.seda.gov.my/profiles/individuals/9/edit"⟩
    rfl rfl rfl rfl rfl
  simpa using h

/-- C6: `SEDAClient` defines no `base_url` attribute, so the application
search, detail and raw-HTML endpoints evaluate `client.base_url` to an
`AttributeError` before any portal request, and the generic handler turns
every such call into the 500 failure response — for all transports, cookie
files and inputs. -/
theorem c6_confirmed (g : GetOracle) (cookies : CookieFile)
    (keyword ca status : Option String) (application_id : String) :
    search_applications g cookies keyword ca status =
      .err 500 ("Failed to search applications: " ++ baseUrlAttrMsg) ∧
    get_application_details g cookies application_id =
      .err 500 ("Failed to get application details: " ++ baseUrlAttrMsg) ∧
    get_application_raw_html g cookies application_id =
      .err 500 ("Failed to get application: " ++ baseUrlAttrMsg) ∧
    clientAttrs.contains "base_url" = false := by
  refine ⟨rfl, rfl, rfl, rfl⟩

/-- C7, counterexample: for HTML holding one bare individual-edit link and
no table row, the profile-list primary pattern yields zero matches and the
extraction returns the empty sequence — no fallback pattern exists for the
profile listing, contradicting the claim that the fallback policy applies
to every resource type's listing alike. -/
theorem c7_counterexample :
    profileRowFindall
      "<a href=\"https://atap.seda.gov.my/profiles/individuals/5/edit\">Bob</a>"
      = [] ∧
    spec_bare_profile_links
      "<a href=\"https://atap.seda.gov.my/profiles/individuals/5/edit\">Bob</a>"
      = 1 ∧
    fetch_profile_list_parse
      "<a href=\"https://atap.seda.gov.my/profiles/individuals/5/edit\">Bob</a>"
      = .ok [] := by
  refine ⟨by decide, by decide, rfl⟩

/-- C7, amended: only the application listing has a fallback pattern — when
its primary row pattern yields zero matches it returns one
partially-populated record per bare application link; the profile listing
has no fallback and returns the empty sequence whenever its primary pattern
yields zero matches. -/
theorem c7_amended :
    (∀ html, profileRowFindall html = [] →
      fetch_profile_list_parse html = .ok []) ∧
    (∀ html, appRowFindall html = [] →
      parse_applications html = (appLinkFindall html).map mk_app_link ∧
      (parse_applications html).length = (appLinkFindall html).length) := by
  constructor
  · intro html h
    simp [fetch_profile_list_parse, h, parseProfileRows]
  · intro html h
    constructor
    · simp [parse_applications, h]
    · simp [parse_applications, h]

/-- C7, witness: the amended theorem applied to a linkless profile fixture
and to an application fixture with one bare link. -/
theorem c7_witness :
    fetch_profile_list_parse "<p>no rows here</p>" = .ok [] ∧
    parse_applications
      "<a href=\"https://atap.seda.gov.my/applications/12/applicant\">Jane</a>"
      = (appLinkFindall
        "<a href=\"https://atap.seda.gov.my/applications/12/applicant\">Jane</a>").map
          mk_app_link ∧
    (parse_applications
      "<a href=\"https://atap.seda.gov.my/applications/12/applicant\">Jane</a>").length
      = 1 := by
  refine ⟨?_, ?_, ?_⟩
  · exact c7_amended.1 "<p>no rows here</p>" (by decide)
  · exact (c7_amended.2
      "<a href=\"https://atap.seda.gov.my/applications/12/applicant\">Jane</a>"
      (by decide)).1
  · have h := (c7_amended.2
      "<a href=\"https://atap.seda.gov.my/applications/12/applicant\">Jane</a>"
      (by decide)).2
    rw [h]
    decide

/-- C8, counterexample: a profile row whose anchor text is
`<strong>Bob</strong>` is extracted with the markup intact — the profile
list only trims whitespace and never strips tags, contradicting the claim
that every extracted text field has its markup tags stripped. -/
theorem c8_counterexample :
    fetch_profile_list_parse
      "<tr><td>1</td><td><a href=\"https://x/profiles/individuals/9/edit\"><strong>Bob</strong></a></td><td>R1</td><td>Cat</td>"
      = .ok [⟨"9", "individuals", "<strong>Bob</strong>", "R1", "Cat",
        "https://x/profiles/individuals/9/edit"⟩] ∧
    spec_tag_stripped "<strong>Bob</strong>" = false := by
  refine ⟨by decide, by decide⟩

/-- C8, amended: every extracted text field is whitespace-trimmed; the
equipment cells and status-badge labels are additionally tag-stripped, but
the profile-list fields (and the applicant/status fields) are only trimmed,
so markup nested inside them is kept. -/
theorem c8_amended (html : String) :
    (∀ l, fetch_profile_list_parse html = .ok l → ∀ p ∈ l,
      (∃ raw, p.name = pyStrip raw) ∧
      (∃ raw, p.registration_number = pyStrip raw) ∧
      (∃ raw, p.category = pyStrip raw)) ∧
    (∀ a ∈ parse_applications html,
      (∃ raw, a.applicant = pyStrip raw) ∧
      (∀ s, a.status = some s → ∃ raw, s = pyStrip raw)) ∧
    (∀ e ∈ app_equipment html,
      (∀ v, e.etype = some v → ∃ raw, v = pyStrip (stripTags raw)) ∧
      (∀ v, e.technology = some v → ∃ raw, v = pyStrip (stripTags raw)) ∧
      (∀ v, e.model = some v → ∃ raw, v = pyStrip (stripTags raw)) ∧
      (∀ v, e.capacity = some v → ∃ raw, v = pyStrip (stripTags raw)) ∧
      (∀ v, e.quantity = some v → ∃ raw, v = pyStrip (stripTags raw))) ∧
    (∀ b ∈ app_status_badges html, ∃ raw, b = pyStrip (stripTags raw)) := by
  refine ⟨?_, ?_, ?_, ?_⟩
  · intro l hl p hp
    obtain ⟨m, hm⟩ := parseProfileRows_mem hl hp
    obtain ⟨u, nm, rg, ct, _, h1, h2, h3⟩ := mk_profile_fields hm
    exact ⟨⟨nm, h1⟩, ⟨rg, h2⟩, ⟨ct, h3⟩⟩
  · intro a ha
    simp only [parse_applications] at ha
    by_cases he : ((appRowFindall html).filterMap mk_app_row).isEmpty
    · rw [if_pos he] at ha
      obtain ⟨m, _, hmk⟩ := List.mem_map.mp ha
      obtain ⟨⟨raw, hraw⟩, hstat⟩ := mk_app_link_fields m
      refine ⟨⟨raw, hmk ▸ hraw⟩, ?_⟩
      intro s hs
      rw [← hmk, hstat] at hs
      cases hs
    · rw [if_neg he] at ha
      obtain ⟨m, _, hmk⟩ := List.mem_filterMap.mp ha
      exact mk_app_row_fields hmk
  · intro e he
    simp only [app_equipment] at he
    obtain ⟨row, _, hmk⟩ := List.mem_filterMap.mp he
    exact mk_equip_row_fields hmk
  · intro b hb
    simp only [app_status_badges] at hb
    obtain ⟨raw, _, hraw⟩ := List.mem_map.mp hb
    exact ⟨raw, hraw.symm⟩

/-- C8, witness: the amended theorem applied to the nested-markup profile
fixture and to a badge fixture. -/
theorem c8_witness :
    (∃ raw, "<strong>Bob</strong>" = pyStrip raw) ∧
    (∃ raw, "Approved" = pyStrip (stripTags raw)) := by
  constructor
  · have h := ((c8_amended
      "<tr><td>1</td><td><a href=\"https://x/profiles/individuals/9/edit\"><strong>Bob</strong></a></td><td>R1</td><td>Cat</td>").1
      [⟨"9", "individuals", "<strong>Bob</strong>", "R1", "Cat",
        "https://x/profiles/individuals/9/edit"⟩] (by decide)
      ⟨"9", "individuals", "<strong>Bob</strong>", "R1", "Cat",
        "https://x/profiles/individuals/9/edit"⟩ (by decide)).1
    simpa using h
  · exact (c8_amended "<span class=\"badge bg\"> <b>Approved</b> </span>").2.2.2
      "Approved" (by decide)

/-- C9, counterexample: a `_token` hidden input is discovered by the input
pattern but deliberately omitted from the detail mapping, contradicting the
claim that no discovered control is omitted. -/
theorem c9_counterexample :
    refindall inputWK
      "<input name=\"_token\" value=\"SECRET\"><input name=\"age\" value=\"7\">"
      = [["_token", "SECRET"], ["age", "7"]] ∧
    lookupStr "_token" (fetch_individual_details_parse
      "<input name=\"_token\" value=\"SECRET\"><input name=\"age\" value=\"7\">")
      = none := by
  refine ⟨rfl, rfl⟩

/-- C9, amended: the detail mapping contains an entry for every discovered
input control except those named `_token`, and an entry for every select
control whose block (through its closing tag) is found, mapped to that
block's selected option's stripped text, or the empty string when none is
selected. -/
theorem c9_amended (html : String) :
    (∀ n v, [n, v] ∈ refindall inputWK html → n ≠ "_token" →
      (lookupStr n (fetch_individual_details_parse html)).isSome = true) ∧
    (∀ n b, n ∈ select_names html → select_block html n = some b →
      lookupStr n (fetch_individual_details_parse html) =
        some (select_value b)) := by
  constructor
  · intro n v hm hn
    exact foldl_selectStep_preserves _ _ (foldl_inputStep_mem hn _ _ hm)
  · intro n b hmem hb
    exact foldl_selectStep_mem hb _ _ hmem

/-- C9, witness: an input and a select on one page are both present in the
mapping, the select mapped to its selected option's text. -/
theorem c9_witness :
    (lookupStr "age" (fetch_individual_details_parse
      "<input name=\"age\" value=\"7\"><select name=\"color\"><option selected>Red</option></select>")).isSome
      = true ∧
    lookupStr "color" (fetch_individual_details_parse
      "<input name=\"age\" value=\"7\"><select name=\"color\"><option selected>Red</option></select>")
      = some "Red" := by
  constructor
  · exact (c9_amended
      "<input name=\"age\" value=\"7\"><select name=\"color\"><option selected>Red</option></select>").1
      "age" "7" (by decide) (by decide)
  · have h := (c9_amended
      "<input name=\"age\" value=\"7\"><select name=\"color\"><option selected>Red</option></select>").2
      "color" "<select name=\"color\"><option selected>Red</option></select>"
      (by decide) (by decide)
    rw [h]
    decide

/-- C10: client construction never raises on any cookie-file content — an
absent file yields the empty cookie set, an unparseable file yields the
empty set, an all-well-formed descriptor list is installed in full, and a
list with a malformed descriptor keeps exactly the well-formed prefix. -/
theorem c10_confirmed :
    initialize_session .absent = [] ∧
    (∀ msg, initialize_session (.invalid msg) = []) ∧
    (∀ descs, (∀ d ∈ descs, d.ok = true) →
      initialize_session (.parsed descs) = descs.map CookieDesc.toCookie) ∧
    (∀ good bad rest, (∀ d ∈ good, d.ok = true) → bad.ok = false →
      initialize_session (.parsed (good ++ bad :: rest)) =
        good.map CookieDesc.toCookie) := by
  refine ⟨rfl, fun _ => rfl, ?_, ?_⟩
  · intro descs h
    exact loadCookiesLoop_all_ok descs h
  · intro good bad rest h hbad
    exact loadCookiesLoop_stops good bad rest h hbad

/-- C10, witness: a well-formed file installs its cookie; a file whose
second descriptor lacks `name` keeps the first cookie only; an unparseable
file yields the empty set. -/
theorem c10_witness :
    initialize_session
      (.parsed [⟨some "sid", some "abc", some ".seda.gov.my"⟩]) =
      [("sid", "abc", ".seda.gov.my")] ∧
    initialize_session
      (.parsed [⟨some "sid", some "abc", none⟩, ⟨none, some "x", none⟩,
        ⟨some "y", some "z", none⟩]) = [("sid", "abc", "")] ∧
    initialize_session (.invalid "not json") = [] := by
  refine ⟨?_, ?_, ?_⟩
  · have h := c10_confirmed.2.2.1
      [⟨some "sid", some "abc", some ".seda.gov.my"⟩] (by decide)
    rw [h]
    decide
  · have h := c10_confirmed.2.2.2 [⟨some "sid", some "abc", none⟩]
      ⟨none, some "x", none⟩ [⟨some "y", some "z", none⟩] (by decide)
      (by decide)
    simp only [List.cons_append, List.nil_append] at h
    rw [h]
    decide
  · exact c10_confirmed.2.1 "not json"
